import Mathlib

/-!
Shallow embedding of the notification-service repository (JavaScript) for
checking its natural-language specification.

Embedded modules and their source files:
* messaging gateway (whatsapp service): sendWhatsAppText,
  sendTermsInteractiveMessage, sendMatchResultsMessage;
* ticket and user store (db service): saveTicket, getUser, createUser,
  acceptTerms, CURRENT_TERMS_VERSION — the relational store is modelled as an
  association list keyed by phone number, with a dbOk flag standing for
  "store calls succeed" (a store failure throws in the source and is caught
  by the surrounding handler);
* matchmaking client (matchmaking service): CATEGORY_SLUG_MAP,
  normalizeCategoryForApi, parseZone, normalizeZoneForSearch,
  findMatchingProviders — the provider directory and the geocoder are
  external collaborators, modelled as oracle inputs (DirOutcome, Coords);
  JavaScript Array.prototype.sort is stable (ES2019), and for the
  boolean-key comparators used by the source a stable sort is exactly a
  stable partition, embedded here as `prioritize`;
* intent extractor wrapper (ai service): analyzeMessage with its in-memory
  session map; the language model call is an oracle input (LlmOutcome);
* webhook orchestrator (notification routes, POST /webhook) and the ticket
  API (ticket routes, POST /tickets).

JavaScript truthiness on optional strings is embedded by `optTruthy`
(undefined/null and the empty string are falsy).  Outbound messages are
recorded as a list of OutMsg events; collaborator side effects are counted
in an Effects record.
-/

/-- Truthiness of an optional string value in JavaScript: `undefined`,
`null` and the empty string are falsy. -/
def optTruthy (o : Option String) : Bool :=
  match o with
  | none => false
  | some s => s ≠ ""

/-- Decimal digit test (character code between 48 and 57), written over
`Char.toNat` so that every use reduces inside the kernel. -/
def isDigitChar (c : Char) : Bool :=
  48 ≤ c.toNat && c.toNat ≤ 57

/-- `String(x).replace(/\D/g, '')`: keep only the digit characters. -/
def digitsOnly (s : String) : String :=
  String.mk (s.toList.filter isDigitChar)

/-- Argentine prefix normalization used throughout the source:
`to.startsWith('549') ? '54' + to.slice(3) : to`, written as a pattern
match on the character list so that it reduces inside the kernel. -/
def norm549 (s : String) : String :=
  match s.toList with
  | '5' :: '4' :: '9' :: rest => String.mk ('5' :: '4' :: rest)
  | _ => s

/-- ASCII lower-casing of one character (adequate for the synonym-table
keys and the urgency literals compared by the source). -/
def charLower (c : Char) : Char :=
  if 65 ≤ c.toNat ∧ c.toNat ≤ 90 then Char.ofNat (c.toNat + 32) else c

/-- `String.prototype.toLowerCase` restricted to ASCII letters, written
over the character list so that it reduces inside the kernel. -/
def strLower (s : String) : String :=
  String.mk (s.toList.map charLower)

/-- Whitespace test for `String.prototype.trim`. -/
def isWsChar (c : Char) : Bool :=
  c = ' ' || c = '\t' || c = '\n' || c = '\r'

/-- `String.prototype.trim`: drop leading and trailing whitespace,
written over the character list so that it reduces inside the kernel. -/
def strTrim (s : String) : String :=
  String.mk (((s.toList.dropWhile isWsChar).reverse.dropWhile isWsChar).reverse)

/-- Split a character list on a separator; empty pieces are kept, as with
`String.prototype.split`. -/
def splitOnCharList (sep : Char) : List Char → List (List Char)
  | [] => [[]]
  | c :: rest =>
    let r := splitOnCharList sep rest
    if c = sep then [] :: r
    else
      match r with
      | [] => [[c]]
      | h :: t => (c :: h) :: t

/-- `zone.split(',')`. -/
def strSplitComma (s : String) : List String :=
  (splitOnCharList ',' s.toList).map String.mk

/-- Association-list lookup (models both the users table keyed by
phone_number and the in-memory `sessions` Map). -/
def aGet {α : Type} (m : List (String × α)) (k : String) : Option α :=
  match m with
  | [] => none
  | (k', v) :: rest => if k' = k then some v else aGet rest k

/-- Association-list insert/replace, keeping the position of an existing
key (the semantics of `Map.prototype.set` and of an SQL UPDATE/INSERT). -/
def aSet {α : Type} (m : List (String × α)) (k : String) (v : α) : List (String × α) :=
  match m with
  | [] => [(k, v)]
  | (k', v') :: rest => if k' = k then (k, v) :: rest else (k', v') :: aSet rest k v

/-- Association-list removal (`Map.prototype.delete`). -/
def aErase {α : Type} (m : List (String × α)) (k : String) : List (String × α) :=
  m.filter (fun e => e.1 ≠ k)

/-- Environment-driven configuration of the service plus the two
availability flags for collaborators that the source probes at call time
(GEMINI_API_KEY for the extractor, META_WA_TOKEN and
META_WA_PHONE_NUMBER_ID for the messaging gateway).  `dbOk` models whether
store calls succeed (a failing call throws in the source). `now` is the
clock used for CURRENT_TIMESTAMP. -/
structure Env where
  allowedNumber : String
  hasClient : Bool
  waConfigured : Bool
  dbOk : Bool
  frontendUrl : String
  radiusKm : Option Nat
  now : Nat
deriving Repr, DecidableEq

/-- `db.service.js`: const CURRENT_TERMS_VERSION = 'v1.1'. -/
def CURRENT_TERMS_VERSION : String := "v1.1"

/-- Row of the `users` table. -/
structure UserRec where
  terms_accepted : Bool
  accepted_at : Option Nat
  terms_version : Option String
deriving Repr, DecidableEq

/-- `extractedData` fields of the intent extractor contract (each may be
null) — also the payload persisted by saveTicket. -/
structure TicketData where
  category : Option String
  description : Option String
  zone : Option String
  urgency : Option String
deriving Repr, DecidableEq

/-- Row of the `tickets` table as inserted by saveTicket. -/
structure TicketRow where
  id : Nat
  phone_number : String
  category : Option String
  description : Option String
  zone : Option String
  urgency : Option String
  source : String
deriving Repr, DecidableEq

/-- Role of one turn of the conversation history kept by the ai service
(`user` for inbound text, `model` for the extractor reply that is pushed
back into the history while collecting). -/
inductive Role where
  | user
  | model
deriving Repr, DecidableEq

/-- One turn of a conversation session. -/
structure Turn where
  role : Role
  text : String
deriving Repr, DecidableEq

/-- Mutable state of the system: users table, in-memory session map,
tickets table, and the next SERIAL ticket id. -/
structure SysState where
  users : List (String × UserRec)
  sessions : List (String × List Turn)
  tickets : List TicketRow
  nextId : Nat
deriving Repr, DecidableEq

/-- One outbound message through the Meta WhatsApp gateway: either a plain
text message or the interactive terms prompt (accept_terms / reject_terms
buttons). -/
inductive OutMsg where
  | text (recipient body : String)
  | termsPrompt (recipient : String)
deriving Repr, DecidableEq

/-- Observable collaborator effects of one request: outbound messages in
order, saveTicket insertions, and call counts for the extractor, the
matchmaking client and the user store. -/
structure Effects where
  sends : List OutMsg
  savedTickets : List TicketRow
  extractorCalls : Nat
  matchmakingCalls : Nat
  getUserCalls : Nat
  createUserCalls : Nat
  acceptTermsCalls : Nat
deriving Repr, DecidableEq

/-- No effects. -/
def noFx : Effects := ⟨[], [], 0, 0, 0, 0, 0⟩

/-! ### Messaging gateway (whatsapp.service.js) -/

/-- sendWhatsAppText: checks configuration, strips non-digits, applies the
549 → 54 normalization, then posts one text message.  An unconfigured
gateway or an empty digit string produces no send. -/
def sendWhatsAppText (env : Env) (phoneNumber body : String) : List OutMsg :=
  if env.waConfigured = false then []
  else
    let t := digitsOnly phoneNumber
    if t = "" then [] else [OutMsg.text (norm549 t) body]

/-- sendTermsInteractiveMessage: same recipient normalization (the source
has no empty-number guard here), posts the interactive terms prompt. -/
def sendTermsInteractiveMessage (env : Env) (phoneNumber : String) : List OutMsg :=
  if env.waConfigured = false then []
  else [OutMsg.termsPrompt (norm549 (digitsOnly phoneNumber))]

/-- `${FRONTEND_URL}/pedidos/match/${ticketId}` — the magic link inside
the match-results message. -/
def ticketLink (env : Env) (ticketId : Nat) : String :=
  env.frontendUrl ++ "/pedidos/match/" ++ toString ticketId

/-- Leading piece of the match-results template, up to the link. -/
def matchResultsPre (matchCount : Nat) : String :=
  "¡Buenas noticias! 🚀 Encontré " ++ toString matchCount ++
    " profesionales disponibles para tu pedido.\n\nTocá el siguiente enlace para ver sus perfiles, reputación y elegir al que más te guste:\n"

/-- Trailing piece of the match-results template, after the link. -/
def matchResultsPost : String :=
  "\n\n¡Avisame por acá cuando hayas elegido!"

/-- Body of the match-results message built by sendMatchResultsMessage. -/
def matchResultsText (env : Env) (matchCount ticketId : Nat) : String :=
  matchResultsPre matchCount ++ ticketLink env ticketId ++ matchResultsPost

/-- sendMatchResultsMessage: builds the count-and-link message and
delegates to sendWhatsAppText. -/
def sendMatchResultsMessage (env : Env) (phoneNumber : String) (matchCount ticketId : Nat) :
    List OutMsg :=
  sendWhatsAppText env phoneNumber (matchResultsText env matchCount ticketId)

/-! ### Matchmaking client (matchmaking.service.js) -/

/-- Static synonym table CATEGORY_SLUG_MAP: user/extractor wording →
category slug of the provider directory. -/
def CATEGORY_SLUG_MAP (key : String) : Option String :=
  if key = "electricista" then some "electricidad"
  else if key = "electricidad" then some "electricidad"
  else if key = "plomero" then some "plomeria"
  else if key = "plomería" then some "plomeria"
  else if key = "plomeria" then some "plomeria"
  else if key = "gasista" then some "gasistas"
  else if key = "gasistas" then some "gasistas"
  else if key = "jardinero" then some "jardineria"
  else if key = "jardinería" then some "jardineria"
  else if key = "jardineria" then some "jardineria"
  else if key = "carpintero" then some "carpinteria"
  else if key = "carpintería" then some "carpinteria"
  else if key = "carpinteria" then some "carpinteria"
  else if key = "pintor" then some "pintura"
  else if key = "pintura" then some "pintura"
  else if key = "pileta" then some "mantenimiento-limpieza-piletas"
  else if key = "piletas" then some "mantenimiento-limpieza-piletas"
  else if key = "electrodomésticos" then some "reparacion-electrodomesticos"
  else if key = "electrodomesticos" then some "reparacion-electrodomesticos"
  else none

/-- Result of normalizeCategoryForApi: at most one of the two fields is
meaningful; categoryName may hold the empty string, which is falsy where
the caller tests it. -/
structure NormCat where
  categoryName : Option String
  categorySlug : Option String
deriving Repr, DecidableEq

/-- normalizeCategoryForApi: a falsy or non-string category yields
`{categoryName: category || '', categorySlug: undefined}`; otherwise the
trimmed lower-cased key is looked up in CATEGORY_SLUG_MAP, yielding the
slug on a hit and the trimmed raw string as name otherwise. -/
def normalizeCategoryForApi (category : Option String) : NormCat :=
  match category with
  | none => ⟨some "", none⟩
  | some c =>
    if c = "" then ⟨some "", none⟩
    else
      match CATEGORY_SLUG_MAP (strLower (strTrim c)) with
      | some slug => ⟨none, some slug⟩
      | none => ⟨some (strTrim c), none⟩

/-- parseZone: split the zone on commas into (city, province); a falsy
zone yields empty strings, a zone with no usable comma part keeps the
whole trimmed string as the city. -/
def parseZone (zone : Option String) : String × String :=
  match zone with
  | none => ("", "")
  | some z =>
    if z = "" then ("", "")
    else
      let t := strTrim z
      let parts := (strSplitComma t).map strTrim |>.filter (fun s => s ≠ "")
      let city := match parts.head? with | some c => c | none => t
      let province := match parts.drop 1 |>.head? with | some p => p | none => ""
      (city, province)

/-- normalizeZoneForSearch: `parseZone(zone).city || zone || ''`. -/
def normalizeZoneForSearch (zone : Option String) : String :=
  let c := (parseZone zone).1
  if c ≠ "" then c
  else match zone with
    | some z => if z ≠ "" then z else ""
    | none => ""

/-- DEFAULT_RADIUS_KM. -/
def DEFAULT_RADIUS_KM : Nat := 40

/-- Coordinates returned by the geocoding collaborator (oracle input;
`none` covers both a missing geocoding endpoint and any geocoding
failure, which the source maps to null). -/
structure Coords where
  lat : Int
  lng : Int
deriving Repr, DecidableEq

/-- Query parameters sent to the provider directory by
findMatchingProviders. -/
structure ProviderParams where
  city : String
  urgency : Option String
  categorySlug : Option String
  categoryName : Option String
  lat : Option Int
  lng : Option Int
  radiusKm : Option Nat
deriving Repr, DecidableEq

/-- The parameter object built by findMatchingProviders before the
directory call: city and urgency always, exactly one category filter when
the normalized category is truthy, and the radius block only when
geocoding produced coordinates
(`Number(MATCHMAKING_RADIUS_KM) || DEFAULT_RADIUS_KM`). -/
def providerRequestParams (radiusEnv : Option Nat) (td : TicketData) (geo : Option Coords) :
    ProviderParams :=
  let nc := normalizeCategoryForApi td.category
  let base : ProviderParams :=
    { city := normalizeZoneForSearch td.zone
      urgency := td.urgency
      categorySlug := none
      categoryName := none
      lat := none, lng := none, radiusKm := none }
  let withCat :=
    match nc.categorySlug with
    | some slug => { base with categorySlug := some slug }
    | none =>
      if optTruthy nc.categoryName then { base with categoryName := nc.categoryName }
      else base
  match geo with
  | some c =>
    { withCat with
        lat := some c.lat, lng := some c.lng
        radiusKm := some (match radiusEnv with
          | some n => if n = 0 then DEFAULT_RADIUS_KM else n
          | none => DEFAULT_RADIUS_KM) }
  | none => withCat

/-- Provider row as returned by the directory. -/
structure Provider where
  id : Nat
  first_name : String
  last_name : String
  avatar_url : String
  whatsapp_e164 : String
  is_pro : Bool
  identity_status : String
  emergency_available : Bool
deriving Repr, DecidableEq

/-- `response.data` of the directory: `{ count, items }`, where `items`
may be missing or not an array. -/
structure DirData where
  items : Option (List Provider)
  count : Option Nat
deriving Repr, DecidableEq

/-- Outcome of the directory HTTP call (oracle input): `fail` covers a
thrown request, a timeout and any non-2xx status (axios throws on those);
`ok` carries `response.data`, which may be null. -/
inductive DirOutcome where
  | fail
  | ok (data : Option DirData)
deriving Repr, DecidableEq

/-- One stable sort pass with a boolean-key comparator of the shape
`(a, b) => a.key && !b.key ? -1 : !a.key && b.key ? 1 : 0`: elements whose
key holds come first, both blocks in original order (Array.prototype.sort
is stable per ES2019, and a stable sort under such a comparator is exactly
this stable partition). -/
def prioritize {α : Type} (key : α → Bool) (l : List α) : List α :=
  l.filter key ++ l.filter (fun a => !key a)

/-- `urgency && (urgency.toLowerCase() === 'alta' || urgency.toLowerCase()
=== 'urgente')`. -/
def urgencyHigh (urgency : Option String) : Bool :=
  match urgency with
  | none => false
  | some s => s ≠ "" && (strLower s = "alta" || strLower s = "urgente")

/-- The two in-place sorts of findMatchingProviders, in source order:
first the urgency rule (emergency_available first, only when urgency is
alta/urgente), then the is_pro rule. -/
def rankProviders (urgency : Option String) (providers : List Provider) : List Provider :=
  let ps := if urgencyHigh urgency then prioritize (fun p => p.emergency_available) providers
            else providers
  prioritize (fun p => p.is_pro) ps

/-- Candidate projection returned to the orchestrator. -/
structure MatchCandidate where
  id : Nat
  name : String
  avatar_url : String
  whatsapp_e164 : String
  is_pro : Bool
  identity_status : String
  emergency_available : Bool
deriving Repr, DecidableEq

/-- The `.map` projection at the end of findMatchingProviders. -/
def projectProvider (p : Provider) : MatchCandidate :=
  ⟨p.id, p.first_name ++ " " ++ p.last_name, p.avatar_url, p.whatsapp_e164,
    p.is_pro, p.identity_status, p.emergency_available⟩

/-- findMatchingProviders: builds the directory query (the parameters do
not influence the oracle outcome `dir`), then on success re-ranks the
returned items and returns the first three projected candidates; any
transport failure, a missing payload, a missing items array or an empty
items list yields the empty list. The function is total: the source
catches every error and returns []. -/
def findMatchingProviders (radiusEnv : Option Nat) (td : TicketData) (geo : Option Coords)
    (dir : DirOutcome) : List MatchCandidate :=
  let _params := providerRequestParams radiusEnv td geo
  match dir with
  | .fail => []
  | .ok none => []
  | .ok (some data) =>
    match data.items with
    | none => []
    | some providers =>
      if providers = [] then []
      else ((rankProviders td.urgency providers).take 3).map projectProvider

/-! ### Intent extractor wrapper (ai.service.js) -/

/-- Result object of analyzeMessage as the orchestrator consumes it: the
parsed JSON fields of the extractor (isComplete, extractedData,
replyToClient, possibly an error field), or an error-only object when the
call failed. Absent JSON fields are `none` (falsy). -/
structure AIResult where
  error : Option String
  isComplete : Bool
  extractedData : Option TicketData
  replyToClient : Option String
deriving Repr, DecidableEq

/-- Error-only result object `{ error: msg }`. -/
def aiError (msg : String) : AIResult := ⟨some msg, false, none, none⟩

/-- Outcome of the language-model call for one turn (oracle input):
`throwErr` covers a thrown request and a malformed / non-JSON payload
(JSON.parse throwing); `ok` carries the raw output text and the parsed
result object. -/
inductive LlmOutcome where
  | throwErr (msg : String)
  | ok (raw : String) (parsed : AIResult)
deriving Repr, DecidableEq

/-- Session map type of the ai service. -/
abbrev Sessions := List (String × List Turn)

/-- analyzeMessage: guards (missing key, falsy text), then pushes the user
turn into the per-sender history (the history array in the Map is mutated
in place, so the pushed turn stays even when the model call fails), calls
the model, and on a parsed result either deletes the session (isComplete)
or appends the model reply turn.  Returns the result object and the new
session map. -/
def analyzeMessage (hasClient : Bool) (sessions : Sessions) (sender text : String)
    (llm : LlmOutcome) : AIResult × Sessions :=
  if hasClient = false then (aiError "ai_not_configured", sessions)
  else if text = "" then (aiError "not_a_service", sessions)
  else
    let history := (aGet sessions sender).getD []
    let hist1 := history ++ [⟨Role.user, text⟩]
    match llm with
    | .throwErr msg =>
      (aiError (if msg = "" then "parse_error" else msg), aSet sessions sender hist1)
    | .ok raw parsed =>
      if parsed.isComplete then (parsed, aErase sessions sender)
      else (parsed, aSet sessions sender (hist1 ++ [⟨Role.model, raw⟩]))

/-! ### User store operations (db.service.js) -/

/-- Row created by createUser: terms not accepted, no version. -/
def freshUser : UserRec := ⟨false, none, none⟩

/-- acceptTerms: UPDATE users SET terms_accepted = true, accepted_at =
CURRENT_TIMESTAMP, terms_version = CURRENT_TERMS_VERSION WHERE
phone_number = phone — a no-op when no row matches. -/
def acceptTermsDb (env : Env) (users : List (String × UserRec)) (phone : String) :
    List (String × UserRec) :=
  match aGet users phone with
  | some u =>
    aSet users phone
      { u with terms_accepted := true, accepted_at := some env.now,
               terms_version := some CURRENT_TERMS_VERSION }
  | none => users

/-! ### Webhook orchestrator (notification.routes.js, POST /webhook) -/

/-- One inbound webhook message: sender id as delivered, message type,
optional text body, optional interactive button id. -/
structure InboundMsg where
  sender : String
  type : String
  textBody : Option String
  buttonId : Option String
deriving Repr, DecidableEq

/-- `(first.type === 'text' && first.text?.body) ? first.text.body : ''`. -/
def textOf (m : InboundMsg) : String :=
  if m.type = "text" then (m.textBody.getD "") else ""

/-- `first.type === 'interactive' ? first.interactive : null`, then
`interactive.button_reply?.id`. -/
def buttonIdOf (m : InboundMsg) : Option String :=
  if m.type = "interactive" then m.buttonId else none

/-- Oracle inputs of one webhook delivery: the parsed messages array
(empty when the payload carries none) and the collaborator outcomes for
the single possible extractor, geocoder and directory call. -/
structure WebhookInput where
  messages : List InboundMsg
  llm : LlmOutcome
  geo : Option Coords
  dir : DirOutcome
deriving Repr, DecidableEq

/-- "no matches" fallback text of the orchestrator. -/
def noMatchesMsg : String :=
  "Ya registré tu pedido, pero en este momento no tengo profesionales disponibles en esa zona. Lo dejo abierto y te aviso apenas se conecte uno."

/-- Confirmation text after accept_terms. -/
def termsThanksMsg : String :=
  "¡Gracias! Ya estás registrado. ¿Qué servicio estás necesitando hoy?"

/-- Acknowledgement text after reject_terms. -/
def termsRejectMsg : String :=
  "Entendemos. Para usar miservicio es necesario aceptar las políticas. ¡Te esperamos cuando gustes!"

/-- Fase 2 of the webhook: send the conversational reply when the result
has no truthy error and a truthy replyToClient, to the 549-normalized
recipient. -/
def webhookFase2 (env : Env) (sender : String) (result : AIResult) (st : SysState)
    (fx : Effects) : Effects × SysState :=
  if optTruthy result.error = false ∧ optTruthy result.replyToClient = true then
    ({ fx with sends := sendWhatsAppText env (norm549 sender) (result.replyToClient.getD "") },
      st)
  else (fx, st)

/-- Extraction stage of the webhook: call analyzeMessage, then on a
complete result with extractedData persist the ticket, run matchmaking and
send exactly one outcome message (returning early in both branches); a
saveTicket failure is caught and falls through — like an incomplete
result — to fase 2. -/
def webhookExtraction (env : Env) (input : WebhookInput) (first : InboundMsg)
    (st : SysState) (fx : Effects) : Effects × SysState :=
  let pr := analyzeMessage env.hasClient st.sessions first.sender (textOf first) input.llm
  let result := pr.1
  let st1 := { st with sessions := pr.2 }
  let fx1 := { fx with extractorCalls := fx.extractorCalls + 1 }
  match result.isComplete, result.extractedData with
  | true, some d =>
    if env.dbOk then
      let tid := st1.nextId
      let row : TicketRow :=
        ⟨tid, first.sender, d.category, d.description, d.zone, d.urgency, "whatsapp"⟩
      let st2 := { st1 with tickets := st1.tickets ++ [row], nextId := tid + 1 }
      let ms := findMatchingProviders env.radiusKm d input.geo input.dir
      let metaRecipient := norm549 first.sender
      if ms = [] then
        ({ fx1 with savedTickets := [row], matchmakingCalls := 1,
                    sends := sendWhatsAppText env metaRecipient noMatchesMsg }, st2)
      else
        ({ fx1 with savedTickets := [row], matchmakingCalls := 1,
                    sends := sendMatchResultsMessage env metaRecipient ms.length tid }, st2)
    else webhookFase2 env first.sender result st1 fx1
  | _, _ => webhookFase2 env first.sender result st1 fx1

/-- Gatekeeper check and onward flow once the user row is at hand. -/
def webhookAfterUser (env : Env) (input : WebhookInput) (first : InboundMsg)
    (st : SysState) (u : UserRec) (fx : Effects) : Effects × SysState :=
  if u.terms_accepted = false ∨ u.terms_version ≠ some CURRENT_TERMS_VERSION then
    ({ fx with sends := sendTermsInteractiveMessage env first.sender }, st)
  else webhookExtraction env input first st fx

/-- Load-or-create the user, then gatekeeper and extraction.  A store
failure on getUser/createUser throws and is swallowed by the outer
catch. -/
def webhookUserFlow (env : Env) (input : WebhookInput) (first : InboundMsg)
    (st : SysState) : Effects × SysState :=
  if env.dbOk = false then ({ noFx with getUserCalls := 1 }, st)
  else
    match aGet st.users first.sender with
    | some u => webhookAfterUser env input first st u { noFx with getUserCalls := 1 }
    | none =>
      webhookAfterUser env input first
        { st with users := aSet st.users first.sender freshUser } freshUser
        { noFx with getUserCalls := 1, createUserCalls := 1 }

/-- Flow for an allow-listed sender: the interactive accept/reject
branches terminate the flow; everything else goes through the user flow. -/
def webhookAllowed (env : Env) (input : WebhookInput) (first : InboundMsg)
    (st : SysState) : Effects × SysState :=
  if buttonIdOf first = some "accept_terms" then
    if env.dbOk = false then ({ noFx with acceptTermsCalls := 1 }, st)
    else
      ({ noFx with acceptTermsCalls := 1,
                   sends := sendWhatsAppText env first.sender termsThanksMsg },
        { st with users := acceptTermsDb env st.users first.sender })
  else if buttonIdOf first = some "reject_terms" then
    ({ noFx with sends := sendWhatsAppText env first.sender termsRejectMsg }, st)
  else webhookUserFlow env input first st

/-- POST /webhook after the unconditional 200 acknowledgement: take the
first message, silently drop it unless the allow-list number is set and
equals the raw sender id, then run the allowed-sender flow. -/
def webhookPost (env : Env) (input : WebhookInput) (st : SysState) : Effects × SysState :=
  match input.messages with
  | [] => (noFx, st)
  | first :: _ =>
    if env.allowedNumber = "" then (noFx, st)
    else if first.sender ≠ env.allowedNumber then (noFx, st)
    else webhookAllowed env input first st

/-! ### Ticket API (ticket.routes.js, POST /tickets) -/

/-- Request body of POST /tickets; absent JSON fields are `none`. -/
structure TicketsBody where
  phone_number : Option String
  category : Option String
  description : Option String
  zone : Option String
  urgency : Option String
deriving Repr, DecidableEq

/-- Response envelope of POST /tickets. -/
structure TicketsResponse where
  status : Nat
  success : Bool
  error : Option String
  message : Option String
  ticketId : Option Nat
deriving Repr, DecidableEq

/-- Validation error text of POST /tickets. -/
def postTicketsMissingFieldsError : String :=
  "Faltan campos obligatorios: phone_number, category y description son requeridos."

/-- POST /tickets: reject with 400 when any of phone_number, category,
description is falsy (absent or empty); otherwise persist one ticket with
source web and answer 201 with the new id; a store failure yields 500. -/
def postTickets (env : Env) (body : TicketsBody) (st : SysState) :
    TicketsResponse × SysState :=
  if (optTruthy body.phone_number && optTruthy body.category
        && optTruthy body.description) = false then
    (⟨400, false, some postTicketsMissingFieldsError, none, none⟩, st)
  else if env.dbOk = false then
    (⟨500, false, some "Error interno al procesar el ticket", none, none⟩, st)
  else
    let tid := st.nextId
    let row : TicketRow :=
      ⟨tid, body.phone_number.getD "", body.category, body.description, body.zone,
        body.urgency, "web"⟩
    (⟨201, true, none, some "Ticket creado con éxito desde la web", some tid⟩,
      { st with tickets := st.tickets ++ [row], nextId := tid + 1 })

/-! ### Helper lemmas -/

theorem aGet_aSet_self {α : Type} (m : List (String × α)) (k : String) (v : α) :
    aGet (aSet m k v) k = some v := by
  induction m with
  | nil => simp [aSet, aGet]
  | cons e rest ih =>
    by_cases h : e.1 = k
    · simp [aSet, aGet, h]
    · simp [aSet, aGet, h, ih]

theorem aGet_aErase_self {α : Type} (m : List (String × α)) (k : String) :
    aGet (aErase m k) k = none := by
  induction m with
  | nil => rfl
  | cons e rest ih =>
    by_cases h : e.1 = k
    · simpa [aErase, h] using ih
    · simpa [aErase, aGet, h] using ih

theorem filter_filter_and {α : Type} (j k : α → Bool) (l : List α) :
    (l.filter j).filter k = l.filter (fun a => j a && k a) := by
  induction l with
  | nil => rfl
  | cons a t ih =>
    cases hj : j a <;> cases hk : k a <;> simp [List.filter_cons, hj, hk, ih]

theorem prioritize_after_prioritize {α : Type} (k j : α → Bool) (l : List α) :
    prioritize k (prioritize j l) =
      l.filter (fun a => k a && j a) ++
        (l.filter (fun a => k a && !j a) ++
          (l.filter (fun a => !k a && j a) ++ l.filter (fun a => !k a && !j a))) := by
  simp [prioritize, List.filter_append, filter_filter_and]

/-! ### Shared concrete fixtures -/

/-- A fully configured environment with allow-listed number
542604800958. -/
def envOk : Env :=
  ⟨"542604800958", true, true, true, "https://miservicio.ar", none, 1000⟩

/-- Directory candidate that is emergency-available but not pro. -/
def provEmergency : Provider := ⟨1, "Eva", "Guardia", "a1", "w1", false, "verified", true⟩

/-- Directory candidate that is pro but not emergency-available. -/
def provPro : Provider := ⟨2, "Pedro", "Pro", "a2", "w2", true, "verified", false⟩

/-- Directory outcome returning the two example candidates, the
emergency-available one first. -/
def dirTwoCandidates : DirOutcome := .ok (some ⟨some [provEmergency, provPro], some 2⟩)

/-- Ticket data with urgency alta. -/
def tdAlta : TicketData := ⟨some "plomeria", some "fuga de agua", some "San Rafael", some "alta"⟩

/-- Ticket data with urgency baja. -/
def tdBaja : TicketData := ⟨some "plomeria", some "fuga de agua", some "San Rafael", some "baja"⟩

/-! ### C2 — matchmaking re-ranking precedence -/

/-- Claim C2 counterexample: with urgency "alta" and candidates
[{is_pro:false, emergency:true}, {is_pro:true, emergency:false}] the
claim puts the emergency-available candidate first, but
findMatchingProviders puts the is_pro candidate first: the is_pro sort
runs after the urgency sort, so it dominates. -/
theorem matchmaking_alta_ispro_first_counterexample :
    urgencyHigh tdAlta.urgency = true ∧
    provEmergency.emergency_available = true ∧ provPro.emergency_available = false ∧
    findMatchingProviders none tdAlta none dirTwoCandidates =
      [projectProvider provPro, projectProvider provEmergency] ∧
    (findMatchingProviders none tdAlta none dirTwoCandidates).head? ≠
      some (projectProvider provEmergency) := by
  refine ⟨by decide, rfl, rfl, by decide, by decide⟩

/-- Claim C2 amended: the two stable sorts of findMatchingProviders run
urgency-rule first and is_pro-rule second, so is_pro takes precedence;
among candidates with equal is_pro, the emergency-available ones sort
first when urgency is alta/urgente; otherwise the original directory
order is preserved (each stage stable).  In particular, for the example
candidates, the is_pro candidate is first both with urgency alta and with
urgency baja. -/
theorem rankProviders_ispro_precedence :
    (∀ (u : Option String) (l : List Provider),
      rankProviders u l =
        if urgencyHigh u = true then
          l.filter (fun p => p.is_pro && p.emergency_available) ++
            (l.filter (fun p => p.is_pro && !p.emergency_available) ++
              (l.filter (fun p => !p.is_pro && p.emergency_available) ++
                l.filter (fun p => !p.is_pro && !p.emergency_available)))
        else l.filter (fun p => p.is_pro) ++ l.filter (fun p => !p.is_pro)) ∧
    findMatchingProviders none tdAlta none dirTwoCandidates =
      [projectProvider provPro, projectProvider provEmergency] ∧
    findMatchingProviders none tdBaja none dirTwoCandidates =
      [projectProvider provPro, projectProvider provEmergency] := by
  refine ⟨fun u l => ?_, by decide, by decide⟩
  by_cases h : urgencyHigh u = true
  · simp [rankProviders, h, prioritize_after_prioritize]
  · simp [rankProviders, h, prioritize]

/-! ### C7 — category normalization and directory filters -/

/-- Ticket data whose category is the empty string. -/
def tdEmptyCat : TicketData := ⟨some "", some "algo", some "San Rafael", some "media"⟩

/-- Claim C7 counterexample: the empty-string category is unmapped, yet
the query carries no name filter at all (the normalized name is the empty
string, which is falsy where the source guards the parameter), while the
claim requires the raw trimmed string as a name filter. -/
theorem category_filter_empty_category_counterexample :
    tdEmptyCat.category = some "" ∧
    CATEGORY_SLUG_MAP (strLower (strTrim "")) = none ∧
    (providerRequestParams none tdEmptyCat none).categoryName = none ∧
    (providerRequestParams none tdEmptyCat none).categorySlug = none := by
  refine ⟨rfl, by decide, by decide, by decide⟩

/-- The category-slug parameter is exactly the normalized slug. -/
theorem providerRequestParams_categorySlug (rad : Option Nat) (td : TicketData)
    (geo : Option Coords) :
    (providerRequestParams rad td geo).categorySlug =
      (normalizeCategoryForApi td.category).categorySlug := by
  unfold providerRequestParams
  cases h : (normalizeCategoryForApi td.category).categorySlug <;> cases geo <;>
    simp [h] <;> split <;> rfl

/-- The category-name parameter is the normalized name, only when no slug
was found and the name is truthy. -/
theorem providerRequestParams_categoryName (rad : Option Nat) (td : TicketData)
    (geo : Option Coords) :
    (providerRequestParams rad td geo).categoryName =
      (match (normalizeCategoryForApi td.category).categorySlug with
        | some _ => none
        | none =>
          if optTruthy (normalizeCategoryForApi td.category).categoryName then
            (normalizeCategoryForApi td.category).categoryName
          else none) := by
  unfold providerRequestParams
  cases h : (normalizeCategoryForApi td.category).categorySlug <;> cases geo <;>
    simp [h] <;> split <;> simp_all

/-- Claim C7 amended: for a category string, a synonym-table hit sends the
slug and no name filter; an unmapped category sends no slug and sends the
trimmed raw string as name filter exactly when that trimmed string is
non-empty (an empty or whitespace-only category sends neither filter);
the two filters are never sent together. -/
theorem category_filter_exclusive
    (rad : Option Nat) (td : TicketData) (geo : Option Coords) (c : String)
    (hc : td.category = some c) :
    (∀ slug, CATEGORY_SLUG_MAP (strLower (strTrim c)) = some slug →
      (providerRequestParams rad td geo).categorySlug = some slug ∧
      (providerRequestParams rad td geo).categoryName = none) ∧
    (CATEGORY_SLUG_MAP (strLower (strTrim c)) = none →
      (providerRequestParams rad td geo).categorySlug = none ∧
      (strTrim c ≠ "" → (providerRequestParams rad td geo).categoryName = some (strTrim c)) ∧
      (strTrim c = "" → (providerRequestParams rad td geo).categoryName = none)) ∧
    ¬((providerRequestParams rad td geo).categorySlug.isSome ∧
      (providerRequestParams rad td geo).categoryName.isSome) := by
  rw [providerRequestParams_categorySlug, providerRequestParams_categoryName, hc]
  by_cases hce : c = ""
  · subst hce
    have hmap0 : CATEGORY_SLUG_MAP (strLower (strTrim "")) = none := by decide
    have htrim0 : strTrim "" = "" := by decide
    refine ⟨fun slug hslug => ?_, fun _ => ?_, ?_⟩
    · rw [hmap0] at hslug
      cases hslug
    · exact ⟨rfl, fun ht => absurd htrim0 ht, fun _ => by simp [normalizeCategoryForApi, optTruthy]⟩
    · simp [normalizeCategoryForApi, optTruthy]
  · have hnorm :
        normalizeCategoryForApi (some c) =
          (match CATEGORY_SLUG_MAP (strLower (strTrim c)) with
            | some slug => (⟨none, some slug⟩ : NormCat)
            | none => ⟨some (strTrim c), none⟩) := by
      simp [normalizeCategoryForApi, hce]
    cases hmap : CATEGORY_SLUG_MAP (strLower (strTrim c)) with
    | some slug =>
      rw [hmap] at hnorm
      refine ⟨fun s hs => ?_, fun hnone => ?_, ?_⟩
      · cases hs
        simp [hnorm]
      · cases hnone
      · simp [hnorm]
    | none =>
      rw [hmap] at hnorm
      refine ⟨fun s hs => ?_, fun _ => ⟨by simp [hnorm], fun ht => ?_, fun ht => ?_⟩, ?_⟩
      · cases hs
      · simp [hnorm, optTruthy, ht]
      · simp [hnorm, optTruthy, ht]
      · by_cases ht : strTrim c = "" <;> simp [hnorm, optTruthy, ht]


/-! ### C8 — directory failure yields empty result -/

/-- Claim C8: a thrown directory call (which also covers timeouts and
non-2xx responses, since axios raises on them), a null payload, or a
payload without an items array all make findMatchingProviders return the
empty list; the function is total, so no exception escapes. -/
theorem findMatchingProviders_failure_empty :
    ∀ (rad : Option Nat) (td : TicketData) (geo : Option Coords) (cnt : Option Nat),
      findMatchingProviders rad td geo .fail = [] ∧
      findMatchingProviders rad td geo (.ok none) = [] ∧
      findMatchingProviders rad td geo (.ok (some ⟨none, cnt⟩)) = [] :=
  fun _ _ _ _ => ⟨rfl, rfl, rfl⟩

/-! ### C9 — POST /tickets validation -/

/-- Empty initial store. -/
def st0 : SysState := ⟨[], [], [], 1⟩

/-- Request body whose three required fields are all present but whose
phone_number is the empty string. -/
def bodyEmptyPhone : TicketsBody := ⟨some "", some "plomeria", some "ca�o roto", none, none⟩

/-- Claim C9 counterexample: with phone_number present but empty (and the
other required fields present and non-empty) the endpoint answers 400 and
persists nothing, while the claim requires 201 and one persisted ticket
whenever all three fields are present. -/
theorem post_tickets_empty_field_counterexample :
    bodyEmptyPhone.phone_number.isSome = true ∧ bodyEmptyPhone.category.isSome = true ∧
    bodyEmptyPhone.description.isSome = true ∧
    (postTickets envOk bodyEmptyPhone st0).1.status = 400 ∧
    (postTickets envOk bodyEmptyPhone st0).1.success = false ∧
    (postTickets envOk bodyEmptyPhone st0).2 = st0 := by
  refine ⟨rfl, rfl, rfl, by decide, by decide, by decide⟩

/-- Claim C9 amended: a body whose phone_number, category or description
is absent or empty gets 400 with the field-naming error envelope and an
unchanged store; a body with all three present and non-empty gets 201
with the new ticket id and exactly one ticket appended, with source
web. -/
theorem post_tickets_validation :
    (∀ (env : Env) (body : TicketsBody) (st : SysState),
      (optTruthy body.phone_number && optTruthy body.category
        && optTruthy body.description) = false →
      postTickets env body st =
        (⟨400, false, some postTicketsMissingFieldsError, none, none⟩, st)) ∧
    (∀ (env : Env) (body : TicketsBody) (st : SysState),
      optTruthy body.phone_number = true → optTruthy body.category = true →
      optTruthy body.description = true → env.dbOk = true →
      postTickets env body st =
        (⟨201, true, none, some "Ticket creado con éxito desde la web", some st.nextId⟩,
          { st with
              tickets := st.tickets ++
                [⟨st.nextId, body.phone_number.getD "", body.category, body.description,
                  body.zone, body.urgency, "web"⟩],
              nextId := st.nextId + 1 })) := by
  constructor
  · intro env body st h
    simp [postTickets, h]
  · intro env body st h1 h2 h3 hdb
    simp [postTickets, h1, h2, h3, hdb]

/-- Witness for C9 amended at concrete inputs: a body missing
phone_number is rejected with 400, a fully filled body is persisted with
201. -/
theorem post_tickets_validation_witness :
    postTickets envOk ⟨none, some "plomeria", some "fuga", none, none⟩ st0 =
      (⟨400, false, some postTicketsMissingFieldsError, none, none⟩, st0) ∧
    postTickets envOk ⟨some "542604111222", some "plomeria", some "fuga", none, none⟩ st0 =
      (⟨201, true, none, some "Ticket creado con éxito desde la web", some st0.nextId⟩,
        { st0 with
            tickets := st0.tickets ++
              [⟨st0.nextId, "542604111222", some "plomeria", some "fuga", none, none, "web"⟩],
            nextId := st0.nextId + 1 }) :=
  ⟨post_tickets_validation.1 envOk ⟨none, some "plomeria", some "fuga", none, none⟩ st0
      (by decide),
    post_tickets_validation.2 envOk ⟨some "542604111222", some "plomeria", some "fuga", none, none⟩
      st0 (by decide) (by decide) (by decide) (by decide)⟩

/-! ### C4 — session lifecycle -/

/-- One inbound turn of the extraction state machine: the text of the
message and the model outcome for it. -/
structure ExtractorTurn where
  text : String
  llm : LlmOutcome
deriving Repr, DecidableEq

/-- The model produced a parsed, incomplete result for this turn. -/
def incompleteOk : LlmOutcome → Bool
  | .throwErr _ => false
  | .ok _ parsed => !parsed.isComplete

/-- Fold analyzeMessage over a sequence of inbound turns of one sender,
keeping the session map. -/
def runExtractorTurns (hasClient : Bool) (sender : String) (turns : List ExtractorTurn)
    (sessions : Sessions) : Sessions :=
  turns.foldl (fun ss tr => (analyzeMessage hasClient ss sender tr.text tr.llm).2) sessions

/-- Number of extractor-reply (model-role) turns in a history. -/
def countModelTurns (h : List Turn) : Nat :=
  (h.filter (fun t => t.role = Role.model)).length

theorem analyzeMessage_incomplete_sessions (ss : Sessions) (sender t raw : String)
    (p : AIResult) (ht : t ≠ "") (hp : p.isComplete = false) :
    (analyzeMessage true ss sender t (.ok raw p)).2 =
      aSet ss sender
        ((aGet ss sender).getD [] ++ [⟨Role.user, t⟩] ++ [⟨Role.model, raw⟩]) := by
  simp [analyzeMessage, ht, hp]

theorem countModelTurns_append_pair (h : List Turn) (t raw : String) :
    countModelTurns (h ++ [⟨Role.user, t⟩] ++ [⟨Role.model, raw⟩]) =
      countModelTurns h + 1 := by
  simp [countModelTurns, List.filter_append, List.filter]

theorem runExtractorTurns_count (sender : String) :
    ∀ (turns : List ExtractorTurn) (ss : Sessions),
      (∀ tr ∈ turns, tr.text ≠ "" ∧ incompleteOk tr.llm = true) →
      countModelTurns ((aGet (runExtractorTurns true sender turns ss) sender).getD []) =
        countModelTurns ((aGet ss sender).getD []) + turns.length := by
  intro turns
  induction turns with
  | nil => intro ss _; simp [runExtractorTurns]
  | cons tr rest ih =>
    intro ss hall
    obtain ⟨ht, hinc⟩ := hall tr (List.mem_cons_self _ _)
    cases hllm : tr.llm with
    | throwErr m =>
      rw [hllm] at hinc
      simp [incompleteOk] at hinc
    | ok raw p =>
      rw [hllm] at hinc
      have hp : p.isComplete = false := by simpa [incompleteOk] using hinc
      have hstep : runExtractorTurns true sender (tr :: rest) ss =
          runExtractorTurns true sender rest
            ((analyzeMessage true ss sender tr.text tr.llm).2) := rfl
      rw [hstep, hllm, analyzeMessage_incomplete_sessions ss sender tr.text raw p ht hp]
      rw [ih _ (fun x hx => hall x (List.mem_cons_of_mem _ hx))]
      rw [aGet_aSet_self, Option.getD_some, countModelTurns_append_pair]
      simp
      omega

/-! ### saveTicket call-count helpers -/

theorem webhookFase2_savedTickets (env : Env) (s : String) (r : AIResult) (st : SysState)
    (fx : Effects) : (webhookFase2 env s r st fx).1.savedTickets = fx.savedTickets := by
  unfold webhookFase2
  split <;> rfl

theorem webhookExtraction_savedTickets_le (env : Env) (input : WebhookInput)
    (first : InboundMsg) (st : SysState) (fx : Effects) (h : fx.savedTickets = []) :
    (webhookExtraction env input first st fx).1.savedTickets.length ≤ 1 := by
  simp only [webhookExtraction]
  rcases hpr : analyzeMessage env.hasClient st.sessions first.sender (textOf first) input.llm
    with ⟨res, ss2⟩
  simp only [hpr]
  split
  · split
    · split <;> simp
    · rw [webhookFase2_savedTickets]
      simp [h]
  · rw [webhookFase2_savedTickets]
    simp [h]

theorem webhookAfterUser_savedTickets_le (env : Env) (input : WebhookInput)
    (first : InboundMsg) (st : SysState) (u : UserRec) (fx : Effects)
    (h : fx.savedTickets = []) :
    (webhookAfterUser env input first st u fx).1.savedTickets.length ≤ 1 := by
  unfold webhookAfterUser
  split
  · simp [h]
  · exact webhookExtraction_savedTickets_le env input first st fx h

theorem webhookUserFlow_savedTickets_le (env : Env) (input : WebhookInput)
    (first : InboundMsg) (st : SysState) :
    (webhookUserFlow env input first st).1.savedTickets.length ≤ 1 := by
  unfold webhookUserFlow
  split
  · simp [noFx]
  · split
    · exact webhookAfterUser_savedTickets_le _ _ _ _ _ _ (by simp [noFx])
    · exact webhookAfterUser_savedTickets_le _ _ _ _ _ _ (by simp [noFx])

theorem webhookAllowed_savedTickets_le (env : Env) (input : WebhookInput)
    (first : InboundMsg) (st : SysState) :
    (webhookAllowed env input first st).1.savedTickets.length ≤ 1 := by
  unfold webhookAllowed
  split
  · split <;> simp [noFx]
  · split
    · simp [noFx]
    · exact webhookUserFlow_savedTickets_le env input first st

theorem webhookPost_savedTickets_le (env : Env) (input : WebhookInput) (st : SysState) :
    (webhookPost env input st).1.savedTickets.length ≤ 1 := by
  unfold webhookPost
  split
  · simp [noFx]
  · split
    · simp [noFx]
    · split
      · simp [noFx]
      · exact webhookAllowed_savedTickets_le _ _ _ _

/-- Claim C4: starting from no session for the sender, N collecting turns
(extractor parses, isComplete false, non-empty text) leave exactly N
extractor-reply turns in the session; the completing turn removes the
session entry; the next turn then starts from an empty history; and any
single webhook delivery records at most one saveTicket call. -/
theorem session_lifecycle_collect_complete
    (sender : String) (turns : List ExtractorTurn) (ss0 : Sessions)
    (tN rawN : String) (pN : AIResult)
    (h0 : aGet ss0 sender = none)
    (hall : ∀ tr ∈ turns, tr.text ≠ "" ∧ incompleteOk tr.llm = true)
    (htN : tN ≠ "") (hpN : pN.isComplete = true) :
    countModelTurns ((aGet (runExtractorTurns true sender turns ss0) sender).getD []) =
      turns.length ∧
    aGet (analyzeMessage true (runExtractorTurns true sender turns ss0) sender tN
        (.ok rawN pN)).2 sender = none ∧
    (∀ (t2 raw2 : String) (p2 : AIResult), t2 ≠ "" → p2.isComplete = false →
      aGet (analyzeMessage true
          (analyzeMessage true (runExtractorTurns true sender turns ss0) sender tN
            (.ok rawN pN)).2 sender t2 (.ok raw2 p2)).2 sender =
        some [⟨Role.user, t2⟩, ⟨Role.model, raw2⟩]) ∧
    (∀ (env : Env) (input : WebhookInput) (st : SysState),
      (webhookPost env input st).1.savedTickets.length ≤ 1) := by
  refine ⟨?_, ?_, ?_, fun env input st => webhookPost_savedTickets_le env input st⟩
  · rw [runExtractorTurns_count sender turns ss0 hall, h0]
    simp [countModelTurns]
  · simp [analyzeMessage, htN, hpN, aGet_aErase_self]
  · intro t2 raw2 p2 ht2 hp2
    have herase :
        aGet (analyzeMessage true (runExtractorTurns true sender turns ss0) sender tN
          (.ok rawN pN)).2 sender = none := by
      simp [analyzeMessage, htN, hpN, aGet_aErase_self]
    rw [analyzeMessage_incomplete_sessions _ sender t2 raw2 p2 ht2 hp2, herase,
      aGet_aSet_self]
    rfl

/-! ### Webhook flow reduction lemmas -/

theorem webhookPost_allowed (env : Env) (input : WebhookInput) (st : SysState)
    (first : InboundMsg) (rest : List InboundMsg)
    (hmsgs : input.messages = first :: rest)
    (hne : env.allowedNumber ≠ "") (hs : first.sender = env.allowedNumber) :
    webhookPost env input st = webhookAllowed env input first st := by
  unfold webhookPost
  simp only [hmsgs]
  rw [if_neg hne, if_neg (by simp [hs])]

theorem webhookAllowed_nonbutton (env : Env) (input : WebhookInput) (first : InboundMsg)
    (st : SysState) (hbtn : buttonIdOf first = none) :
    webhookAllowed env input first st = webhookUserFlow env input first st := by
  unfold webhookAllowed
  rw [hbtn]
  simp

theorem webhookUserFlow_found (env : Env) (input : WebhookInput) (first : InboundMsg)
    (st : SysState) (u : UserRec) (hdb : env.dbOk = true)
    (hu : aGet st.users first.sender = some u) :
    webhookUserFlow env input first st =
      webhookAfterUser env input first st u { noFx with getUserCalls := 1 } := by
  unfold webhookUserFlow
  rw [if_neg (by simp [hdb]), hu]

theorem webhookAfterUser_gated (env : Env) (input : WebhookInput) (first : InboundMsg)
    (st : SysState) (u : UserRec) (fx : Effects)
    (hgate : u.terms_accepted = false ∨ u.terms_version ≠ some CURRENT_TERMS_VERSION) :
    webhookAfterUser env input first st u fx =
      ({ fx with sends := sendTermsInteractiveMessage env first.sender }, st) := by
  unfold webhookAfterUser
  rw [if_pos hgate]

theorem webhookAfterUser_cleared (env : Env) (input : WebhookInput) (first : InboundMsg)
    (st : SysState) (u : UserRec) (fx : Effects)
    (hu1 : u.terms_accepted = true) (hu2 : u.terms_version = some CURRENT_TERMS_VERSION) :
    webhookAfterUser env input first st u fx = webhookExtraction env input first st fx := by
  unfold webhookAfterUser
  rw [if_neg (by simp [hu1, hu2])]

theorem analyzeMessage_complete (ss : Sessions) (sender t raw : String) (parsed : AIResult)
    (ht : t ≠ "") (hic : parsed.isComplete = true) :
    analyzeMessage true ss sender t (.ok raw parsed) = (parsed, aErase ss sender) := by
  simp [analyzeMessage, ht, hic]

theorem analyzeMessage_throw (ss : Sessions) (sender t msg : String) (ht : t ≠ "") :
    analyzeMessage true ss sender t (.throwErr msg) =
      (aiError (if msg = "" then "parse_error" else msg),
        aSet ss sender ((aGet ss sender).getD [] ++ [⟨Role.user, t⟩])) := by
  simp [analyzeMessage, ht]

theorem webhookExtraction_complete (env : Env) (input : WebhookInput) (first : InboundMsg)
    (st : SysState) (fx : Effects) (raw t : String) (parsed : AIResult) (d : TicketData)
    (htext : textOf first = t) (ht : t ≠ "") (hai : env.hasClient = true)
    (hdb : env.dbOk = true) (hllm : input.llm = .ok raw parsed)
    (hic : parsed.isComplete = true) (hed : parsed.extractedData = some d) :
    webhookExtraction env input first st fx =
      (if findMatchingProviders env.radiusKm d input.geo input.dir = [] then
        ({ fx with
             extractorCalls := fx.extractorCalls + 1
             savedTickets :=
               [⟨st.nextId, first.sender, d.category, d.description, d.zone, d.urgency,
                 "whatsapp"⟩]
             matchmakingCalls := 1
             sends := sendWhatsAppText env (norm549 first.sender) noMatchesMsg },
          { st with
              sessions := aErase st.sessions first.sender
              tickets := st.tickets ++
                [⟨st.nextId, first.sender, d.category, d.description, d.zone, d.urgency,
                  "whatsapp"⟩]
              nextId := st.nextId + 1 })
      else
        ({ fx with
             extractorCalls := fx.extractorCalls + 1
             savedTickets :=
               [⟨st.nextId, first.sender, d.category, d.description, d.zone, d.urgency,
                 "whatsapp"⟩]
             matchmakingCalls := 1
             sends := sendMatchResultsMessage env (norm549 first.sender)
               (findMatchingProviders env.radiusKm d input.geo input.dir).length st.nextId },
          { st with
              sessions := aErase st.sessions first.sender
              tickets := st.tickets ++
                [⟨st.nextId, first.sender, d.category, d.description, d.zone, d.urgency,
                  "whatsapp"⟩]
              nextId := st.nextId + 1 })) := by
  simp only [webhookExtraction, hai, htext, hllm,
    analyzeMessage_complete st.sessions first.sender t raw parsed ht hic, hic, hed]
  rw [if_pos hdb]

theorem webhookExtraction_throw (env : Env) (input : WebhookInput) (first : InboundMsg)
    (st : SysState) (fx : Effects) (t msg : String)
    (htext : textOf first = t) (ht : t ≠ "") (hai : env.hasClient = true)
    (hllm : input.llm = .throwErr msg) :
    webhookExtraction env input first st fx =
      ({ fx with extractorCalls := fx.extractorCalls + 1 },
        { st with
            sessions := aSet st.sessions first.sender
              ((aGet st.sessions first.sender).getD [] ++ [⟨Role.user, t⟩]) }) := by
  simp only [webhookExtraction, hai, htext, hllm,
    analyzeMessage_throw st.sessions first.sender t msg ht]
  rcases eq_or_ne msg "" with hm | hm <;>
    simp [webhookFase2, aiError, optTruthy, hm]

/-! ### C10 — allow-list rejection is a silent no-op -/

/-- Claim C10: with an empty allow-list number or a raw sender id
different from it, the webhook records no effect at all (no send, no
store call, no extractor call) and leaves the state untouched; the
comparison uses the sender id as delivered (the 549 normalization is
applied only to outbound recipients, later). -/
theorem webhook_unauthorized_silent_noop (env : Env) (input : WebhookInput) (st : SysState)
    (first : InboundMsg) (rest : List InboundMsg)
    (hmsgs : input.messages = first :: rest)
    (hrej : env.allowedNumber = "" ∨ first.sender ≠ env.allowedNumber) :
    webhookPost env input st = (noFx, st) := by
  unfold webhookPost
  simp only [hmsgs]
  rcases hrej with h | h
  · rw [if_pos h]
  · by_cases he : env.allowedNumber = ""
    · rw [if_pos he]
    · rw [if_neg he, if_pos h]

/-- Inbound message whose raw sender id carries the extra 9 that the
allow-list entry lacks. -/
def msg549 : InboundMsg := ⟨"5492604800958", "text", some "hola", none⟩

/-- Witness for C10: the 549-prefixed sender normalizes to the configured
number, yet the raw comparison rejects it and nothing happens. -/
theorem webhook_unauthorized_silent_noop_witness :
    norm549 msg549.sender = envOk.allowedNumber ∧
    msg549.sender ≠ envOk.allowedNumber ∧
    webhookPost envOk ⟨[msg549], .throwErr "x", none, .fail⟩ st0 = (noFx, st0) :=
  ⟨by decide, by decide,
    webhook_unauthorized_silent_noop envOk ⟨[msg549], .throwErr "x", none, .fail⟩ st0 msg549 []
      rfl (Or.inr (by decide))⟩

/-! ### C3 — terms gatekeeper blocks the extractor -/

/-- Claim C3: for an allow-listed sender whose user row has
terms_accepted false or a stale terms_version, a non-button message
yields exactly one outbound message — the interactive terms prompt — no
extractor call (extractorCalls stays 0), no ticket, and an unchanged
state. -/
theorem webhook_terms_gate_blocks_extractor (env : Env) (input : WebhookInput)
    (st : SysState) (first : InboundMsg) (rest : List InboundMsg) (u : UserRec)
    (hmsgs : input.messages = first :: rest)
    (hne : env.allowedNumber ≠ "") (hs : first.sender = env.allowedNumber)
    (htype : first.type ≠ "interactive")
    (hdb : env.dbOk = true) (hwa : env.waConfigured = true)
    (hu : aGet st.users first.sender = some u)
    (hgate : u.terms_accepted = false ∨ u.terms_version ≠ some CURRENT_TERMS_VERSION) :
    webhookPost env input st =
      ({ noFx with
           getUserCalls := 1
           sends := [OutMsg.termsPrompt (norm549 (digitsOnly first.sender))] }, st) := by
  rw [webhookPost_allowed env input st first rest hmsgs hne hs,
    webhookAllowed_nonbutton env input first st (by simp [buttonIdOf, htype]),
    webhookUserFlow_found env input first st u hdb hu,
    webhookAfterUser_gated env input first st u _ hgate]
  simp only [sendTermsInteractiveMessage]
  rw [if_neg (by simp [hwa])]

/-- User row with terms not accepted. -/
def userNoTerms : UserRec := ⟨false, none, none⟩

/-- Inbound text message from the allow-listed number. -/
def msgAllowedText : InboundMsg := ⟨"542604800958", "text", some "hola", none⟩

/-- Store holding the allow-listed user without accepted terms. -/
def stNoTerms : SysState := ⟨[("542604800958", userNoTerms)], [], [], 1⟩

/-- Witness for C3 at a concrete state. -/
theorem webhook_terms_gate_blocks_extractor_witness :
    webhookPost envOk ⟨[msgAllowedText], .throwErr "x", none, .fail⟩ stNoTerms =
      ({ noFx with
           getUserCalls := 1
           sends := [OutMsg.termsPrompt (norm549 (digitsOnly msgAllowedText.sender))] },
        stNoTerms) :=
  webhook_terms_gate_blocks_extractor envOk ⟨[msgAllowedText], .throwErr "x", none, .fail⟩
    stNoTerms msgAllowedText [] userNoTerms rfl (by decide) rfl (by decide) rfl rfl
    (by decide) (Or.inl rfl)

theorem sendWhatsAppText_sends (env : Env) (p body : String)
    (hwa : env.waConfigured = true) (hdig : digitsOnly p ≠ "") :
    sendWhatsAppText env p body = [OutMsg.text (norm549 (digitsOnly p)) body] := by
  simp only [sendWhatsAppText]
  rw [if_neg (by simp [hwa]), if_neg hdig]

/-! ### C6 — accept_terms / reject_terms buttons -/

/-- Claim C6: for an allow-listed sender, the accept_terms button reply
updates the existing user row to terms_accepted true with accepted_at set
to the current clock and terms_version set to CURRENT_TERMS_VERSION and
sends exactly one confirmation text; the reject_terms button reply sends
exactly one acknowledgement text and changes nothing; neither path calls
the extractor or touches the session map. -/
theorem webhook_terms_buttons :
    (∀ (env : Env) (input : WebhookInput) (st : SysState) (first : InboundMsg)
        (rest : List InboundMsg) (u : UserRec),
      input.messages = first :: rest → env.allowedNumber ≠ "" →
      first.sender = env.allowedNumber → first.type = "interactive" →
      first.buttonId = some "accept_terms" → env.dbOk = true →
      env.waConfigured = true → digitsOnly first.sender ≠ "" →
      aGet st.users first.sender = some u →
      webhookPost env input st =
        ({ noFx with
             sends := [OutMsg.text (norm549 (digitsOnly first.sender)) termsThanksMsg]
             acceptTermsCalls := 1 },
          { st with
              users := aSet st.users first.sender
                ⟨true, some env.now, some CURRENT_TERMS_VERSION⟩ })) ∧
    (∀ (env : Env) (input : WebhookInput) (st : SysState) (first : InboundMsg)
        (rest : List InboundMsg),
      input.messages = first :: rest → env.allowedNumber ≠ "" →
      first.sender = env.allowedNumber → first.type = "interactive" →
      first.buttonId = some "reject_terms" →
      env.waConfigured = true → digitsOnly first.sender ≠ "" →
      webhookPost env input st =
        ({ noFx with
             sends := [OutMsg.text (norm549 (digitsOnly first.sender)) termsRejectMsg] },
          st)) := by
  constructor
  · intro env input st first rest u hmsgs hne hs htype hbtn hdb hwa hdig hu
    rw [webhookPost_allowed env input st first rest hmsgs hne hs]
    unfold webhookAllowed
    rw [if_pos (show buttonIdOf first = some "accept_terms" by
          simp [buttonIdOf, htype, hbtn])]
    rw [if_neg (by simp [hdb])]
    have hacc : acceptTermsDb env st.users first.sender =
        aSet st.users first.sender ⟨true, some env.now, some CURRENT_TERMS_VERSION⟩ := by
      unfold acceptTermsDb
      rw [hu]
    rw [hacc, sendWhatsAppText_sends env first.sender termsThanksMsg hwa hdig]
  · intro env input st first rest hmsgs hne hs htype hbtn hwa hdig
    rw [webhookPost_allowed env input st first rest hmsgs hne hs]
    unfold webhookAllowed
    rw [if_neg (show ¬buttonIdOf first = some "accept_terms" by
          simp [buttonIdOf, htype, hbtn])]
    rw [if_pos (show buttonIdOf first = some "reject_terms" by
          simp [buttonIdOf, htype, hbtn])]
    rw [sendWhatsAppText_sends env first.sender termsRejectMsg hwa hdig]

/-- accept_terms button reply from the allow-listed number. -/
def msgAccept : InboundMsg := ⟨"542604800958", "interactive", none, some "accept_terms"⟩

/-- reject_terms button reply from the allow-listed number. -/
def msgReject : InboundMsg := ⟨"542604800958", "interactive", none, some "reject_terms"⟩

/-- Witness for C6 at a concrete state. -/
theorem webhook_terms_buttons_witness :
    webhookPost envOk ⟨[msgAccept], .throwErr "x", none, .fail⟩ stNoTerms =
      ({ noFx with
           sends := [OutMsg.text (norm549 (digitsOnly msgAccept.sender)) termsThanksMsg]
           acceptTermsCalls := 1 },
        { stNoTerms with
            users := aSet stNoTerms.users msgAccept.sender
              ⟨true, some envOk.now, some CURRENT_TERMS_VERSION⟩ }) ∧
    webhookPost envOk ⟨[msgReject], .throwErr "x", none, .fail⟩ stNoTerms =
      ({ noFx with
           sends := [OutMsg.text (norm549 (digitsOnly msgReject.sender)) termsRejectMsg] },
        stNoTerms) :=
  ⟨webhook_terms_buttons.1 envOk ⟨[msgAccept], .throwErr "x", none, .fail⟩ stNoTerms msgAccept
      [] userNoTerms rfl (by decide) rfl rfl rfl rfl rfl (by decide) (by decide),
    webhook_terms_buttons.2 envOk ⟨[msgReject], .throwErr "x", none, .fail⟩ stNoTerms msgReject
      [] rfl (by decide) rfl rfl rfl rfl (by decide)⟩

/-! ### C1 — completed extraction: persist, match, one outcome message -/

/-- Claim C1: for a cleared allow-listed sender whose turn completes the
extraction, the orchestrator saves exactly one whatsapp-source ticket,
runs matchmaking once, and sends exactly one outbound message — the
match-results text with the candidate count and the ticket link when
candidates exist, the no-match fallback otherwise; the extractor reply
(replyToClient) is never also sent, since the outbound list is exactly
that singleton. -/
theorem webhook_completed_ticket_single_outcome (env : Env) (input : WebhookInput)
    (st : SysState) (first : InboundMsg) (rest : List InboundMsg) (u : UserRec)
    (raw t : String) (parsed : AIResult) (d : TicketData)
    (hmsgs : input.messages = first :: rest)
    (hne : env.allowedNumber ≠ "") (hs : first.sender = env.allowedNumber)
    (htype : first.type = "text") (hbody : first.textBody = some t) (ht : t ≠ "")
    (hdb : env.dbOk = true) (hwa : env.waConfigured = true) (hai : env.hasClient = true)
    (hdig : digitsOnly (norm549 first.sender) ≠ "")
    (hu : aGet st.users first.sender = some u)
    (hu1 : u.terms_accepted = true) (hu2 : u.terms_version = some CURRENT_TERMS_VERSION)
    (hllm : input.llm = .ok raw parsed) (hic : parsed.isComplete = true)
    (hed : parsed.extractedData = some d) :
    (webhookPost env input st).1.savedTickets =
      [⟨st.nextId, first.sender, d.category, d.description, d.zone, d.urgency, "whatsapp"⟩] ∧
    (webhookPost env input st).2.tickets = st.tickets ++
      [⟨st.nextId, first.sender, d.category, d.description, d.zone, d.urgency, "whatsapp"⟩] ∧
    (webhookPost env input st).1.matchmakingCalls = 1 ∧
    (findMatchingProviders env.radiusKm d input.geo input.dir ≠ [] →
      (webhookPost env input st).1.sends =
        [OutMsg.text (norm549 (digitsOnly (norm549 first.sender)))
          (matchResultsText env
            (findMatchingProviders env.radiusKm d input.geo input.dir).length st.nextId)]) ∧
    (findMatchingProviders env.radiusKm d input.geo input.dir = [] →
      (webhookPost env input st).1.sends =
        [OutMsg.text (norm549 (digitsOnly (norm549 first.sender))) noMatchesMsg]) ∧
    (∃ pre post,
      matchResultsText env
          (findMatchingProviders env.radiusKm d input.geo input.dir).length st.nextId =
        pre ++ ticketLink env st.nextId ++ post) := by
  have hbtn : buttonIdOf first = none := by simp [buttonIdOf, htype]
  have htext : textOf first = t := by simp [textOf, htype, hbody]
  have hpost : webhookPost env input st =
      webhookExtraction env input first st { noFx with getUserCalls := 1 } := by
    rw [webhookPost_allowed env input st first rest hmsgs hne hs,
      webhookAllowed_nonbutton env input first st hbtn,
      webhookUserFlow_found env input first st u hdb hu,
      webhookAfterUser_cleared env input first st u _ hu1 hu2]
  have hsend2 : sendMatchResultsMessage env (norm549 first.sender)
      (findMatchingProviders env.radiusKm d input.geo input.dir).length st.nextId =
      [OutMsg.text (norm549 (digitsOnly (norm549 first.sender)))
        (matchResultsText env
          (findMatchingProviders env.radiusKm d input.geo input.dir).length st.nextId)] := by
    unfold sendMatchResultsMessage
    exact sendWhatsAppText_sends env _ _ hwa hdig
  rw [hpost,
    webhookExtraction_complete env input first st _ raw t parsed d htext ht hai hdb hllm
      hic hed,
    sendWhatsAppText_sends env (norm549 first.sender) noMatchesMsg hwa hdig, hsend2]
  by_cases hms : findMatchingProviders env.radiusKm d input.geo input.dir = []
  · rw [if_pos hms]
    exact ⟨rfl, rfl, rfl, fun hne2 => absurd hms hne2, fun _ => rfl,
      ⟨matchResultsPre (findMatchingProviders env.radiusKm d input.geo input.dir).length,
        matchResultsPost, rfl⟩⟩
  · rw [if_neg hms]
    exact ⟨rfl, rfl, rfl, fun _ => rfl, fun hh => absurd hh hms,
      ⟨matchResultsPre (findMatchingProviders env.radiusKm d input.geo input.dir).length,
        matchResultsPost, rfl⟩⟩

/-- User row with accepted, current terms. -/
def userCleared : UserRec := ⟨true, some 5, some "v1.1"⟩

/-- Store holding the cleared allow-listed user. -/
def stCleared : SysState := ⟨[("542604800958", userCleared)], [], [], 1⟩

/-- Parsed extractor result completing a ticket. -/
def parsedComplete : AIResult := ⟨none, true, some tdAlta, some "listo"⟩

/-- Webhook input whose extraction completes and whose directory returns
the two example candidates. -/
def inputComplete : WebhookInput :=
  ⟨[msgAllowedText], .ok "raw" parsedComplete, none, dirTwoCandidates⟩

/-- Witness for C1 at a concrete state with a non-empty candidate list. -/
theorem webhook_completed_ticket_single_outcome_witness :
    (webhookPost envOk inputComplete stCleared).1.savedTickets =
      [⟨stCleared.nextId, msgAllowedText.sender, tdAlta.category, tdAlta.description,
        tdAlta.zone, tdAlta.urgency, "whatsapp"⟩] ∧
    (webhookPost envOk inputComplete stCleared).1.sends =
      [OutMsg.text (norm549 (digitsOnly (norm549 msgAllowedText.sender)))
        (matchResultsText envOk
          (findMatchingProviders envOk.radiusKm tdAlta inputComplete.geo
            inputComplete.dir).length stCleared.nextId)] :=
  have h := webhook_completed_ticket_single_outcome envOk inputComplete stCleared
    msgAllowedText [] userCleared "raw" "hola" parsedComplete tdAlta rfl (by decide) rfl rfl
    rfl (by decide) rfl rfl rfl (by decide) (by decide) rfl rfl rfl rfl rfl
  ⟨h.1, h.2.2.2.1 (by decide)⟩

/-! ### C5 — extractor failure -/

/-- Claim C5 amended: when the extractor call throws or its payload does
not parse, the turn sends nothing and persists nothing, and the user and
ticket state are untouched; the session, however, is not untouched: it
keeps the accumulated history with the current user turn appended (and no
extractor-reply turn), which is what the next retry sees. -/
theorem webhook_extractor_failure_keeps_history (env : Env) (input : WebhookInput)
    (st : SysState) (first : InboundMsg) (rest : List InboundMsg) (u : UserRec)
    (t : String) (hist : List Turn) (msg : String)
    (hmsgs : input.messages = first :: rest)
    (hne : env.allowedNumber ≠ "") (hs : first.sender = env.allowedNumber)
    (htype : first.type = "text") (hbody : first.textBody = some t) (ht : t ≠ "")
    (hdb : env.dbOk = true) (hai : env.hasClient = true)
    (hu : aGet st.users first.sender = some u)
    (hu1 : u.terms_accepted = true) (hu2 : u.terms_version = some CURRENT_TERMS_VERSION)
    (hsess : aGet st.sessions first.sender = some hist)
    (hllm : input.llm = .throwErr msg) :
    (webhookPost env input st).1.sends = [] ∧
    (webhookPost env input st).1.savedTickets = [] ∧
    (webhookPost env input st).2.users = st.users ∧
    (webhookPost env input st).2.tickets = st.tickets ∧
    (webhookPost env input st).2.sessions =
      aSet st.sessions first.sender (hist ++ [⟨Role.user, t⟩]) := by
  have hbtn : buttonIdOf first = none := by simp [buttonIdOf, htype]
  have htext : textOf first = t := by simp [textOf, htype, hbody]
  have hpost : webhookPost env input st =
      webhookExtraction env input first st { noFx with getUserCalls := 1 } := by
    rw [webhookPost_allowed env input st first rest hmsgs hne hs,
      webhookAllowed_nonbutton env input first st hbtn,
      webhookUserFlow_found env input first st u hdb hu,
      webhookAfterUser_cleared env input first st u _ hu1 hu2]
  rw [hpost, webhookExtraction_throw env input first st _ t msg htext ht hai hllm]
  refine ⟨rfl, rfl, rfl, rfl, ?_⟩
  simp [hsess]

/-- In-progress session for the allow-listed sender. -/
def histInProgress : List Turn :=
  [⟨Role.user, "se me rompió el caño"⟩, ⟨Role.model, "zona?"⟩]

/-- Store holding the cleared user and an in-progress session. -/
def stInProgress : SysState :=
  ⟨[("542604800958", userCleared)], [("542604800958", histInProgress)], [], 1⟩

/-- Webhook input whose extractor call throws. -/
def inputThrow : WebhookInput := ⟨[msgAllowedText], .throwErr "network error", none, .fail⟩

/-- Claim C5 counterexample: the extractor call fails, nothing is sent
and nothing persisted, but the session map is changed — the current user
turn was already pushed into the history — so the turn is not the no-op
with an untouched session that the claim states. -/
theorem extractor_failure_touches_session_counterexample :
    (webhookPost envOk inputThrow stInProgress).1.sends = [] ∧
    (webhookPost envOk inputThrow stInProgress).1.savedTickets = [] ∧
    (webhookPost envOk inputThrow stInProgress).2.sessions ≠ stInProgress.sessions := by
  refine ⟨by decide, by decide, by decide⟩

/-- Witness for C5 amended at a concrete state. -/
theorem webhook_extractor_failure_keeps_history_witness :
    (webhookPost envOk inputThrow stInProgress).1.sends = [] ∧
    (webhookPost envOk inputThrow stInProgress).2.sessions =
      aSet stInProgress.sessions msgAllowedText.sender
        (histInProgress ++ [⟨Role.user, "hola"⟩]) :=
  have h := webhook_extractor_failure_keeps_history envOk inputThrow stInProgress
    msgAllowedText [] userCleared "hola" histInProgress "network error" rfl (by decide) rfl
    rfl rfl (by decide) rfl rfl (by decide) rfl rfl (by decide) rfl
  ⟨h.1, h.2.2.2.2⟩

/-- Two collecting turns for the session-lifecycle witness. -/
def collectTurns : List ExtractorTurn :=
  [⟨"se me rompió el caño", .ok "r1" ⟨none, false, none, some "zona?"⟩⟩,
    ⟨"en el centro, urgente", .ok "r2" ⟨none, false, none, some "ok"⟩⟩]

/-- Witness for C4: two collecting turns leave two model turns, and the
completing turn removes the session. -/
theorem session_lifecycle_collect_complete_witness :
    countModelTurns
        ((aGet (runExtractorTurns true "542604800958" collectTurns []) "542604800958").getD
          []) = collectTurns.length ∧
    aGet (analyzeMessage true (runExtractorTurns true "542604800958" collectTurns [])
        "542604800958" "listo" (.ok "done" parsedComplete)).2 "542604800958" = none :=
  have h := session_lifecycle_collect_complete "542604800958" collectTurns [] "listo" "done"
    parsedComplete rfl (by decide) (by decide) rfl
  ⟨h.1, h.2.1⟩

/-- Witness for C7 amended at the mapped example category. -/
theorem category_filter_exclusive_witness :
    (providerRequestParams none ⟨some "electricista", none, none, none⟩ none).categorySlug =
      some "electricidad" ∧
    (providerRequestParams none ⟨some "electricista", none, none, none⟩ none).categoryName =
      none :=
  (category_filter_exclusive none ⟨some "electricista", none, none, none⟩ none "electricista"
    rfl).1 "electricidad" (by decide)
